import Mathlib

/-!
Shallow embedding of the synchronous OCR service in
`Lanchain_AgenticAI/1-python_basics/nanonets_ocr_old.py`.

The endpoints `extract_resume_fields`, `ocr_smalter_sync` and the bulk helper
`run_bulk_ocr_task_sync` are translated function by function.  External
collaborators (the OCR model call, PDF/image decoding, archive extraction,
metadata extraction) are passed in as a record of functions, exactly as the
spec treats them: black boxes that either return a value or raise (modelled
with `Except String`).  File-system effects that the spec's resource claims
are about (temp files, scratch directories, upload reads, model invocations)
are tracked by threading an explicit counter state `FsState` through the
translation; `with`-blocks and `try/finally` become the corresponding
create/release bumps on that state.
-/

/-- Raw uploaded or extracted bytes; the code never inspects them itself,
it only hands them to collaborators. -/
abbrev Bytes := List Nat

/-- One structured OCR payload (an arbitrary JSON-like value, kept abstract). -/
abbrev Payload := String

/-- A decoded PIL image, kept abstract. -/
abbrev Img := String

/-- Python `str.lower()` on the ASCII range, as used on filenames. -/
def py_lower (s : String) : String :=
  String.mk (s.data.map Char.toLower)

/-- Python `str.upper()` on the ASCII range, as used on extensions. -/
def py_upper (s : String) : String :=
  String.mk (s.data.map Char.toUpper)

/-- Python `str.endswith(suffix_str)`. -/
def py_endswith (s suffix_str : String) : Bool :=
  List.isSuffixOf suffix_str.data s.data

/-- Index of the last dot of a character list, if any. -/
def lastDotIdx (cs : List Char) : Option Nat :=
  (List.range cs.length).foldl (fun acc i => if cs.getD i ' ' = '.' then some i else acc) none

/-- Python `os.path.splitext(name)[1]` for a bare filename (no directory
separators, which is how the code uses it): the extension starts at the last
dot, except that a name whose characters before that last dot are all dots
(for example `.bashrc`, `..txt`) has no extension. -/
def splitext_ext (name : String) : String :=
  match lastDotIdx name.data with
  | none => ""
  | some i =>
    if (name.data.take i).all (fun c => c = '.') then ""
    else String.mk (name.data.drop i)

/-- The classification line repeated at each endpoint:
`file_extension.replace(".", "").upper() if file_extension else "UNKNOWN"`
(replacing the one-character pattern `.` by the empty string drops every dot). -/
def file_type_tag (file_extension : String) : String :=
  if file_extension = "" then "UNKNOWN"
  else py_upper (String.mk (file_extension.data.filter (fun c => c ≠ '.')))

/-- Modelled from the spec: the `CniLanguage` enumeration is defined in
`helpers/helper_smalter.py`, which is not among the sources; the spec only
says the language hint is an enumerated value, so two representative
variants are used.  No claim depends on the particular variants. -/
inductive CniLanguage where
  | AR
  | FR
deriving DecidableEq, Repr

/-- Modelled from the spec: the Python enum member payload `lang.value`. -/
def CniLanguage.value : CniLanguage → String
  | .AR => "ar"
  | .FR => "fr"

/-- Modelled from the spec: the `SmalterDocumentType` enumeration is defined
in `helpers/helper_smalter.py`, which is not among the sources; the spec
names the selectors identity-front, identity-back, work-contract, resume,
generic. -/
inductive SmalterDocumentType where
  | CNI_FRONT
  | CNI_BACK
  | WORK_CONTRACT
  | RESUME
  | GENERIC
deriving DecidableEq, Repr

/-- Modelled from the spec: the Python enum member payload `image_type.value`. -/
def SmalterDocumentType.value : SmalterDocumentType → String
  | .CNI_FRONT => "identity-front"
  | .CNI_BACK => "identity-back"
  | .WORK_CONTRACT => "work-contract"
  | .RESUME => "resume"
  | .GENERIC => "generic"

/-- `image_type in [SmalterDocumentType.CNI_FRONT, SmalterDocumentType.CNI_BACK]`
(computed at the top of `ocr_smalter_sync` and again per bulk entry). -/
def is_cni (image_type : SmalterDocumentType) : Bool :=
  decide (image_type ∈ [SmalterDocumentType.CNI_FRONT, SmalterDocumentType.CNI_BACK])

/-- `supported_bulk_types` from `ocr_smalter_sync`. -/
def supported_bulk_types : List SmalterDocumentType :=
  [SmalterDocumentType.CNI_FRONT, SmalterDocumentType.CNI_BACK, SmalterDocumentType.WORK_CONTRACT]

/-- `supported_extensions = ('.png', '.jpg', '.jpeg', '.pdf')` from the bulk loop. -/
def supported_extensions : List String :=
  [".png", ".jpg", ".jpeg", ".pdf"]

/-- The bulk loop's filter `filename.lower().endswith(supported_extensions)`. -/
def is_supported_entry (filename : String) : Bool :=
  supported_extensions.any (fun ext => py_endswith (py_lower filename) ext)

/-- What the OCR collaborator `ocr_smalter_helper` may return: a single
structured payload or a list of payloads (spec section 4.2). -/
inductive OcrResult where
  | single (payload : Payload)
  | multi (payloads : List Payload)
deriving DecidableEq, Repr

/-- The normalization expression used at both assembly sites:
`ocr_result if isinstance(ocr_result, list) else [ocr_result]`. -/
def normalize_details : OcrResult → List Payload
  | .multi payloads => payloads
  | .single payload => [payload]

/-- The `file_metadata` dictionary; a field holding `none` models an absent
key, and `error` models the `"error": True` key of failure fragments. -/
structure FileMetadata where
  source_file : Option String := none
  file_url : Option String := none
  file_type : Option String := none
  file_creation_date : Option String := none
  language : Option String := none
  error : Bool := false
deriving DecidableEq, Repr

/-- One response envelope `{"file_metadata": ..., "details": [...]}`. -/
structure Fragment where
  file_metadata : FileMetadata
  details : List Payload
deriving DecidableEq, Repr

/-- `fastapi.HTTPException(status_code, detail)` as surfaced to the caller. -/
structure HTTPException where
  status_code : Nat
  detail : String
deriving DecidableEq, Repr

/-- The value of a successful `/ocr/smalter/...` call: one envelope for a
single document, a list of envelopes for a ZIP upload. -/
inductive SmalterResponse where
  | single (fragment : Fragment)
  | bulk (fragments : List Fragment)
deriving DecidableEq, Repr

/-- A Python exception live inside a handler body: either an
`HTTPException` raised on purpose or any other exception carrying its
message.  Both are subclasses of `Exception`, so both are caught by the
handlers' catch-all `except Exception` clauses. -/
inductive PyExc where
  | http (status_code : Nat) (detail : String)
  | other (msg : String)
deriving DecidableEq, Repr

/-- Python `str(e)`: Starlette renders `HTTPException` as
`"{status_code}: {detail}"`; for other exceptions the message itself. -/
def PyExc.str : PyExc → String
  | .http code detail => Nat.repr code ++ ": " ++ detail
  | .other msg => msg

/-- Counters for the file-system and collaborator effects the spec's
resource claims talk about.  `*_live` counts currently existing resources,
`*_created` counts acquisitions, `upload_reads` counts `await file.read()`
calls and `model_calls` counts OCR-collaborator invocations. -/
structure FsState where
  upload_reads : Nat := 0
  temp_files_created : Nat := 0
  temp_files_live : Nat := 0
  scratch_dirs_created : Nat := 0
  scratch_dirs_live : Nat := 0
  model_calls : Nat := 0
deriving DecidableEq, Repr

/-- The external collaborators, injected as the spec prescribes.  A
collaborator that may raise returns `Except String`, the error being
`str(e)` of the raised exception.  `get_document_creation_date_sync` never
raises (spec section 6). -/
structure Collab where
  expand_archive : Bytes → Except String (List String)
  read_file : String → Except String Bytes
  get_document_creation_date_sync : String → Bytes → String
  ocr_smalter_helper : Bytes → SmalterDocumentType → Option CniLanguage → Except String OcrResult
  convert_from_bytes : Bytes → Except String (List Img)
  image_open : Bytes → Except String Img
  ocr_resume : Img → Except String String
  clean_zip_from_resume_entry : String → String
  json_loads : String → Except String Payload

/-- Body of the per-entry `try` block of `run_bulk_ocr_task_sync`
(lines 172-185): read the extracted file, classify it, call the OCR
collaborator, assemble the success fragment.  Any raise becomes `.error`
with the exception's message; accessing `lang.value` on a missing hint is
the `AttributeError` Python would raise there. -/
def process_bulk_entry_try (C : Collab) (image_type : SmalterDocumentType)
    (lang : Option CniLanguage) (filename : String) : Except String Fragment :=
  match C.read_file filename with
  | .error e => .error e
  | .ok file_bytes_for_meta =>
    let creation_date := C.get_document_creation_date_sync filename file_bytes_for_meta
    let file_extension := splitext_ext filename
    let file_type := file_type_tag file_extension
    match C.ocr_smalter_helper file_bytes_for_meta image_type lang with
    | .error e => .error e
    | .ok ocr_result =>
      let md : FileMetadata :=
        { source_file := some filename,
          file_url := some ("/ocr/smalter/" ++ image_type.value),
          file_type := some file_type,
          file_creation_date := some creation_date }
      if is_cni image_type then
        match lang with
        | none => .error "AttributeError: \x27NoneType\x27 object has no attribute \x27value\x27"
        | some l =>
          .ok { file_metadata := { md with language := some l.value },
                details := normalize_details ocr_result }
      else
        .ok { file_metadata := md, details := normalize_details ocr_result }

/-- One bulk entry with its `except` clause (lines 186-187): a raise is
captured as the error fragment
`{"file_metadata": {"source_file": filename, "error": True}, "details": [str(e)]}`. -/
def process_bulk_entry (C : Collab) (image_type : SmalterDocumentType)
    (lang : Option CniLanguage) (filename : String) : Fragment :=
  match process_bulk_entry_try C image_type lang filename with
  | .ok fragment => fragment
  | .error e =>
    { file_metadata := { source_file := some filename, error := true }, details := [e] }

/-- How many OCR-collaborator invocations one supported entry performs: one,
unless reading the extracted file already raised. -/
def bulk_entry_ocr_calls (C : Collab) (filename : String) : Nat :=
  match C.read_file filename with
  | .ok _ => 1
  | .error _ => 0

/-- The `for filename in files` loop of `run_bulk_ocr_task_sync`
(lines 167-187): unsupported names are skipped by `continue`, every
supported name contributes exactly one fragment and the loop always
advances to the next entry. -/
def run_bulk_entries (C : Collab) (image_type : SmalterDocumentType)
    (lang : Option CniLanguage) : List String → FsState → List Fragment × FsState
  | [], s => ([], s)
  | filename :: rest, s =>
    if is_supported_entry filename then
      let rec_result := run_bulk_entries C image_type lang rest
        { s with model_calls := s.model_calls + bulk_entry_ocr_calls C filename }
      (process_bulk_entry C image_type lang filename :: rec_result.1, rec_result.2)
    else
      run_bulk_entries C image_type lang rest s

/-- `run_bulk_ocr_task_sync` (lines 158-188): create the scratch directory
(`tempfile.TemporaryDirectory`), evaluate the expansion step
(`zipfile.ZipFile(...).extractall` plus the `os.walk` enumeration), walk and
process the entries, and remove the scratch directory when the `with` block
exits on every path, exception or not.  The expansion step is kept
parametric (`C.expand_archive`), but note that the module as committed
never imports `zipfile`: the name `zipfile` at line 165 is unbound, so the
expansion the module actually performs is `zipfile_missing_expand` below,
which raises `NameError` on every call — `runtime_collab` instantiates the
parameter accordingly, and the committed program's bulk behavior is
`run_bulk_ocr_task_sync (runtime_collab C)`. -/
def run_bulk_ocr_task_sync (C : Collab) (zip_bytes : Bytes)
    (image_type : SmalterDocumentType) (lang : Option CniLanguage)
    (s : FsState) : Except String (List Fragment) × FsState :=
  let s1 := { s with scratch_dirs_created := s.scratch_dirs_created + 1,
                     scratch_dirs_live := s.scratch_dirs_live + 1 }
  let inner : Except String (List Fragment) × FsState :=
    match C.expand_archive zip_bytes with
    | .error e => (.error e, s1)
    | .ok files =>
      let entries_result := run_bulk_entries C image_type lang files s1
      (.ok entries_result.1, entries_result.2)
  (inner.1, { inner.2 with scratch_dirs_live := inner.2.scratch_dirs_live - 1 })

/-- The single-file branch of `ocr_smalter_sync` (lines 111-133): classify,
write the upload to a `NamedTemporaryFile`, call the OCR collaborator under
`try/finally os.remove`, assemble the envelope; the surrounding
`except Exception` turns any raise into `HTTPException(500, str(e))`. -/
def smalter_single_arm (C : Collab) (image_type : SmalterDocumentType)
    (filename : String) (file_bytes : Bytes) (lang : Option CniLanguage)
    (s : FsState) : Except HTTPException Fragment × FsState :=
  let creation_date := C.get_document_creation_date_sync filename file_bytes
  let file_extension := splitext_ext filename
  let file_type := file_type_tag file_extension
  let s1 := { s with temp_files_created := s.temp_files_created + 1,
                     temp_files_live := s.temp_files_live + 1 }
  let s2 := { s1 with model_calls := s1.model_calls + 1 }
  let r := C.ocr_smalter_helper file_bytes image_type lang
  let s3 := { s2 with temp_files_live := s2.temp_files_live - 1 }
  match r with
  | .error e => (.error { status_code := 500, detail := e }, s3)
  | .ok ocr_result =>
    let md : FileMetadata :=
      { file_url := some ("/ocr/smalter/" ++ image_type.value),
        file_type := some file_type,
        file_creation_date := some creation_date }
    if is_cni image_type then
      match lang with
      | none =>
        (.error { status_code := 500,
                  detail := "AttributeError: \x27NoneType\x27 object has no attribute \x27value\x27" }, s3)
      | some l =>
        (.ok { file_metadata := { md with language := some l.value },
               details := normalize_details ocr_result }, s3)
    else
      (.ok { file_metadata := md, details := normalize_details ocr_result }, s3)

/-- The `/ocr/smalter/...` endpoint `ocr_smalter_sync` (lines 81-133):
validate the language hint, read the upload, then dispatch on whether the
lowercased filename ends in `.zip` (bulk) or not (single document). -/
def ocr_smalter_sync (C : Collab) (image_type : SmalterDocumentType)
    (filename : String) (upload : Bytes) (lang : Option CniLanguage)
    (s : FsState) : Except HTTPException SmalterResponse × FsState :=
  if is_cni image_type && lang.isNone then
    (.error { status_code := 400,
              detail := "The \x27lang\x27 parameter is required for CNI documents." }, s)
  else
    let s0 := { s with upload_reads := s.upload_reads + 1 }
    let file_bytes := upload
    if py_endswith (py_lower filename) ".zip" then
      if ¬ (image_type ∈ supported_bulk_types) then
        (.error { status_code := 400,
                  detail := "Bulk processing for \x27" ++ image_type.value ++ "\x27 is not supported." }, s0)
      else
        let bulk_result := run_bulk_ocr_task_sync C file_bytes image_type lang s0
        match bulk_result.1 with
        | .ok bulk_results => (.ok (.bulk bulk_results), bulk_result.2)
        | .error e =>
          (.error { status_code := 500, detail := "Bulk processing failed: " ++ e }, bulk_result.2)
    else
      let single_result := smalter_single_arm C image_type filename file_bytes lang s0
      match single_result.1 with
      | .ok fragment => (.ok (.single fragment), single_result.2)
      | .error err => (.error err, single_result.2)

/-- Observer: did the smalter call return a bulk (per-entry list) response. -/
def response_is_bulk : Except HTTPException SmalterResponse → Bool
  | .ok (SmalterResponse.bulk _) => true
  | _ => false

/-- Observer: did the smalter call return a single-document response. -/
def response_is_single : Except HTTPException SmalterResponse → Bool
  | .ok (SmalterResponse.single _) => true
  | _ => false

/-- The `/ocr/resume` endpoint `extract_resume_fields` (lines 56-79).  The
`HTTPException(415)` and `HTTPException(422)` raised inside the `try` block
are subclasses of `Exception`, so they are caught by this handler's own
`except Exception as e` clause and re-raised as `HTTPException(500, str(e))`. -/
def extract_resume_fields (C : Collab) (filename : String) (content : Bytes) :
    Except HTTPException Fragment :=
  let body : Except PyExc Fragment :=
    let creation_date := C.get_document_creation_date_sync filename content
    let file_extension := splitext_ext filename
    let file_type := file_type_tag file_extension
    let imagesE : Except PyExc (List Img) :=
      if file_type = "PDF" then
        match C.convert_from_bytes content with
        | .error e => .error (.other e)
        | .ok images => .ok images
      else if file_type = "PNG" ∨ file_type = "JPG" ∨ file_type = "JPEG" then
        match C.image_open content with
        | .error e => .error (.other e)
        | .ok img => .ok [img]
      else .error (.http 415 ("Unsupported file type: " ++ file_type ++ "."))
    match imagesE with
    | .error e => .error e
    | .ok [] => .error (.http 422 "Could not process file into an image.")
    | .ok (img :: _) =>
      match C.ocr_resume img with
      | .error e => .error (.other e)
      | .ok raw_output =>
        let cleaned_json_string := C.clean_zip_from_resume_entry raw_output
        match C.json_loads cleaned_json_string with
        | .error e => .error (.other e)
        | .ok ocr_result =>
          .ok { file_metadata :=
                  { file_url := some "/ocr/resume",
                    file_type := some file_type,
                    file_creation_date := some creation_date },
                details := [ocr_result] }
  match body with
  | .ok fragment => .ok fragment
  | .error e => .error { status_code := 500, detail := PyExc.str e }

/-- A collaborator bundle where every call succeeds with a fixed value;
witnesses override individual fields. -/
def base_collab : Collab where
  expand_archive := fun _ => .ok []
  read_file := fun _ => .ok []
  get_document_creation_date_sync := fun _ _ => "1970-01-01"
  ocr_smalter_helper := fun _ _ _ => .ok (.single "payload")
  convert_from_bytes := fun _ => .ok ["img"]
  image_open := fun _ => .ok "img"
  ocr_resume := fun _ => .ok "raw"
  clean_zip_from_resume_entry := fun t => t
  json_loads := fun _ => .ok "parsed"

/-- The all-zero counter state used by the concrete witnesses. -/
def fs0 : FsState := {}


/-- The expansion step the committed module actually performs: the module
never imports `zipfile`, so evaluating `zipfile.ZipFile(zip_buffer, 'r')`
at line 165 raises `NameError: name 'zipfile' is not defined` on every
call, before the archive bytes are looked at — no entry list can ever be
produced. -/
def zipfile_missing_expand : Bytes → Except String (List String) :=
  fun _ => .error "name \x27zipfile\x27 is not defined"

/-- The collaborator bundle as the committed module resolves it: whatever
the other collaborators are, the expansion slot is the unbound `zipfile`
reference, which always raises. -/
def runtime_collab (C : Collab) : Collab :=
  { C with expand_archive := zipfile_missing_expand }

/-- Collaborators whose PDF decoder yields no page images. -/
def c6_collab : Collab :=
  { base_collab with convert_from_bytes := fun _ => .ok [] }

/-- Collaborators whose archive expansion raises (malformed archive). -/
def c7_collab : Collab :=
  { base_collab with expand_archive := fun _ => .error "File is not a zip file" }

/-! Helper lemmas about the bulk entry pipeline and the counter state. -/

theorem try_ok_metadata (C : Collab) (T : SmalterDocumentType)
    (lang : Option CniLanguage) (n : String) (f : Fragment)
    (h : process_bulk_entry_try C T lang n = .ok f) :
    f.file_metadata.source_file = some n ∧ f.file_metadata.error = false ∧
      f.file_metadata.language.isSome = is_cni T := by
  unfold process_bulk_entry_try at h
  cases hr : C.read_file n with
  | error e => simp [hr] at h
  | ok b =>
    simp only [hr] at h
    cases ho : C.ocr_smalter_helper b T lang with
    | error e => simp [ho] at h
    | ok r =>
      simp only [ho] at h
      cases hc : is_cni T with
      | false =>
        simp only [hc, Bool.false_eq_true, if_false, Except.ok.injEq] at h
        subst h
        simp
      | true =>
        simp only [hc, if_true] at h
        cases lang with
        | none => simp at h
        | some l =>
          simp only [Except.ok.injEq] at h
          subst h
          simp

theorem try_ok_details (C : Collab) (T : SmalterDocumentType)
    (lang : Option CniLanguage) (n : String) (b : Bytes) (r : OcrResult) (f : Fragment)
    (hb : C.read_file n = .ok b)
    (hr : C.ocr_smalter_helper b T lang = .ok r)
    (h : process_bulk_entry_try C T lang n = .ok f) :
    f.details = normalize_details r := by
  unfold process_bulk_entry_try at h
  simp only [hb, hr] at h
  cases hc : is_cni T with
  | false =>
    simp only [hc, Bool.false_eq_true, if_false, Except.ok.injEq] at h
    subst h
    rfl
  | true =>
    simp only [hc, if_true] at h
    cases lang with
    | none => simp at h
    | some l =>
      simp only [Except.ok.injEq] at h
      subst h
      rfl

theorem run_bulk_entries_snd (C : Collab) (T : SmalterDocumentType)
    (lang : Option CniLanguage) (files : List String) :
    ∀ s : FsState, ∃ k : Nat,
      (run_bulk_entries C T lang files s).2 =
        { s with model_calls := s.model_calls + k } := by
  induction files with
  | nil => intro s; exact ⟨0, rfl⟩
  | cons n rest ih =>
    intro s
    cases h : is_supported_entry n with
    | false =>
      obtain ⟨k, hk⟩ := ih s
      exact ⟨k, by simp [run_bulk_entries, h, hk]⟩
    | true =>
      obtain ⟨k, hk⟩ :=
        ih { s with model_calls := s.model_calls + bulk_entry_ocr_calls C n }
      refine ⟨bulk_entry_ocr_calls C n + k, ?_⟩
      simp only [run_bulk_entries, h, if_true]
      rw [hk]
      simp [Nat.add_assoc]

theorem run_bulk_fst_err (C : Collab) (zb : Bytes) (T : SmalterDocumentType)
    (lang : Option CniLanguage) (s : FsState) (e : String)
    (h : C.expand_archive zb = .error e) :
    (run_bulk_ocr_task_sync C zb T lang s).1 = .error e := by
  unfold run_bulk_ocr_task_sync
  simp [h]

theorem run_bulk_snd (C : Collab) (zb : Bytes) (T : SmalterDocumentType)
    (lang : Option CniLanguage) (s : FsState) :
    ∃ k : Nat, (run_bulk_ocr_task_sync C zb T lang s).2 =
      { s with scratch_dirs_created := s.scratch_dirs_created + 1,
               model_calls := s.model_calls + k } := by
  unfold run_bulk_ocr_task_sync
  cases he : C.expand_archive zb with
  | error e =>
    refine ⟨0, ?_⟩
    simp [he]
  | ok files =>
    obtain ⟨k, hk⟩ := run_bulk_entries_snd C T lang files
      { s with scratch_dirs_created := s.scratch_dirs_created + 1,
               scratch_dirs_live := s.scratch_dirs_live + 1 }
    refine ⟨k, ?_⟩
    simp only [he]
    rw [hk]
    simp

theorem smalter_single_arm_snd (C : Collab) (T : SmalterDocumentType)
    (filename : String) (b : Bytes) (lang : Option CniLanguage)
    (s : FsState) :
    (smalter_single_arm C T filename b lang s).2 =
      { s with temp_files_created := s.temp_files_created + 1,
               model_calls := s.model_calls + 1 } := by
  unfold smalter_single_arm
  cases hr : C.ocr_smalter_helper b T lang with
  | error e => simp [hr]
  | ok r =>
    cases hc : is_cni T with
    | false => simp [hr, hc]
    | true =>
      cases lang with
      | none => simp [hr, hc]
      | some l => simp [hr, hc]

theorem smalter_single_arm_err_status (C : Collab) (T : SmalterDocumentType)
    (filename : String) (b : Bytes) (lang : Option CniLanguage)
    (s : FsState) (err : HTTPException)
    (h : (smalter_single_arm C T filename b lang s).1 = .error err) :
    err.status_code = 500 := by
  unfold smalter_single_arm at h
  cases hr : C.ocr_smalter_helper b T lang with
  | error e =>
    simp only [hr, Except.error.injEq] at h
    cases h
    rfl
  | ok r =>
    simp only [hr] at h
    cases hc : is_cni T with
    | false => simp [hc] at h
    | true =>
      simp only [hc, if_true] at h
      cases lang with
      | none =>
        simp only [Except.error.injEq] at h
        cases h
        rfl
      | some l => simp at h

theorem smalter_single_arm_ok (C : Collab) (T : SmalterDocumentType)
    (filename : String) (b : Bytes) (lang : Option CniLanguage)
    (s s' : FsState) (f : Fragment)
    (h : smalter_single_arm C T filename b lang s = (.ok f, s')) :
    f.file_metadata.source_file = none ∧ f.file_metadata.error = false ∧
      f.file_metadata.language.isSome = is_cni T := by
  have h1 : (smalter_single_arm C T filename b lang s).1 = .ok f := by rw [h]
  unfold smalter_single_arm at h1
  cases hr : C.ocr_smalter_helper b T lang with
  | error e => simp [hr] at h1
  | ok r =>
    simp only [hr] at h1
    cases hc : is_cni T with
    | false =>
      simp only [hc, Bool.false_eq_true, if_false, Except.ok.injEq] at h1
      subst h1
      simp
    | true =>
      simp only [hc, if_true] at h1
      cases lang with
      | none => simp at h1
      | some l =>
        simp only [Except.ok.injEq] at h1
        subst h1
        simp

theorem smalter_single_arm_ok_details (C : Collab) (T : SmalterDocumentType)
    (filename : String) (b : Bytes) (lang : Option CniLanguage)
    (s s' : FsState) (f : Fragment) (r : OcrResult)
    (hr : C.ocr_smalter_helper b T lang = .ok r)
    (h : smalter_single_arm C T filename b lang s = (.ok f, s')) :
    f.details = normalize_details r := by
  have h1 : (smalter_single_arm C T filename b lang s).1 = .ok f := by rw [h]
  unfold smalter_single_arm at h1
  simp only [hr] at h1
  cases hc : is_cni T with
  | false =>
    simp only [hc, Bool.false_eq_true, if_false, Except.ok.injEq] at h1
    subst h1
    rfl
  | true =>
    simp only [hc, if_true] at h1
    cases lang with
    | none => simp at h1
    | some l =>
      simp only [Except.ok.injEq] at h1
      subst h1
      rfl

theorem ocr_smalter_sync_snd (C : Collab) (T : SmalterDocumentType)
    (filename : String) (b : Bytes) (lang : Option CniLanguage) (s : FsState) :
    (ocr_smalter_sync C T filename b lang s).2 = s ∨
    (∃ k : Nat, (ocr_smalter_sync C T filename b lang s).2 =
      { s with upload_reads := s.upload_reads + 1,
               scratch_dirs_created := s.scratch_dirs_created + 1,
               model_calls := s.model_calls + k }) ∨
    (ocr_smalter_sync C T filename b lang s).2 =
      { s with upload_reads := s.upload_reads + 1 } ∨
    (ocr_smalter_sync C T filename b lang s).2 =
      { s with upload_reads := s.upload_reads + 1,
               temp_files_created := s.temp_files_created + 1,
               model_calls := s.model_calls + 1 } := by
  cases hv : is_cni T && lang.isNone with
  | true =>
    left
    simp [ocr_smalter_sync, hv]
  | false =>
    cases hz : py_endswith (py_lower filename) ".zip" with
    | true =>
      by_cases hm : T ∈ supported_bulk_types
      · right; left
        obtain ⟨k, hk⟩ := run_bulk_snd C b T lang { s with upload_reads := s.upload_reads + 1 }
        refine ⟨k, ?_⟩
        simp only [ocr_smalter_sync, hv, hz, hm, Bool.false_eq_true, if_false, if_true,
          not_true, ite_false, ite_true]
        cases hb : (run_bulk_ocr_task_sync C b T lang { s with upload_reads := s.upload_reads + 1 }).1 with
        | ok frs => simpa [hb] using hk
        | error e => simpa [hb] using hk
      · right; right; left
        simp [ocr_smalter_sync, hv, hz, hm]
    | false =>
      right; right; right
      simp only [ocr_smalter_sync, hv, hz, Bool.false_eq_true, if_false]
      have harm := smalter_single_arm_snd C T filename b lang
        { s with upload_reads := s.upload_reads + 1 }
      cases hs : (smalter_single_arm C T filename b lang { s with upload_reads := s.upload_reads + 1 }).1 with
      | ok f => simpa [hs] using harm
      | error err => simpa [hs] using harm

/-- C1 (code-bug evidence): the committed module never imports `zipfile`,
so every call of `run_bulk_ocr_task_sync` raises
`NameError: name \x27zipfile\x27 is not defined` at the expansion step
(line 165), whatever the archive bytes, selector, hint or prior state: the
dispatcher never returns a fragment sequence at all, so the claimed
per-entry failure isolation (N fragments with the failing entry reported
inline) is unreachable — the whole bulk request fails instead, with no
model call ever made. -/
theorem bulk_dispatch_always_raises_nameerror (C : Collab) (zb : Bytes)
    (T : SmalterDocumentType) (lang : Option CniLanguage) (s : FsState) :
    (run_bulk_ocr_task_sync (runtime_collab C) zb T lang s).1 =
      .error "name \x27zipfile\x27 is not defined" ∧
    (run_bulk_ocr_task_sync (runtime_collab C) zb T lang s).2.model_calls =
      s.model_calls := by
  constructor
  · exact run_bulk_fst_err (runtime_collab C) zb T lang s _ rfl
  · unfold run_bulk_ocr_task_sync
    simp [runtime_collab, zipfile_missing_expand]

/-- C2 (code-bug evidence): no bulk request of the committed module ever
returns a sequence of fragments: the missing `zipfile` import makes every
dispatcher call raise before extraction, so the fragment count the claim
promises never exists — the fragment-length observation is always the
`NameError`, and the endpoint never answers with a bulk response, for every
selector, filename and byte content. -/
theorem bulk_fragment_sequence_never_returned (C : Collab) (T : SmalterDocumentType)
    (filename : String) (upload : Bytes) (lang : Option CniLanguage) (s : FsState) :
    Except.map (fun L : List Fragment => L.length)
        (run_bulk_ocr_task_sync (runtime_collab C) upload T lang s).1 =
      .error "name \x27zipfile\x27 is not defined" ∧
    response_is_bulk (ocr_smalter_sync (runtime_collab C) T filename upload lang s).1 =
      false := by
  constructor
  · rw [run_bulk_fst_err (runtime_collab C) upload T lang s _ rfl]
    rfl
  · cases hv : is_cni T && lang.isNone with
    | true => simp [ocr_smalter_sync, hv, response_is_bulk]
    | false =>
      cases hz : py_endswith (py_lower filename) ".zip" with
      | false =>
        simp only [ocr_smalter_sync, hv, hz, Bool.false_eq_true, if_false]
        cases hs : (smalter_single_arm (runtime_collab C) T filename upload lang
            { s with upload_reads := s.upload_reads + 1 }).1 with
        | ok f => simp [hs, response_is_bulk]
        | error err => simp [hs, response_is_bulk]
      | true =>
        by_cases hm : T ∈ supported_bulk_types
        · have hb := run_bulk_fst_err (runtime_collab C) upload T lang
            { s with upload_reads := s.upload_reads + 1 }
            "name \x27zipfile\x27 is not defined" rfl
          simp [ocr_smalter_sync, hv, hz, hm, hb, response_is_bulk]
        · simp [ocr_smalter_sync, hv, hz, hm, response_is_bulk]

/-- C3: the scratch directory of a bulk dispatch and the temp file of the
single-document step are released on every exit path: for arbitrary
collaborator outcomes (all entries succeeding, any subset failing, or the
extraction itself raising; the OCR collaborator raising in the single step)
the live resource counters after the call equal those before it. -/
theorem scratch_and_temp_cleanup_on_all_paths (C : Collab) (T : SmalterDocumentType)
    (lang : Option CniLanguage) (zb : Bytes) (filename : String) (b : Bytes)
    (s : FsState) :
    ((run_bulk_ocr_task_sync C zb T lang s).2.scratch_dirs_live = s.scratch_dirs_live ∧
     (run_bulk_ocr_task_sync C zb T lang s).2.temp_files_live = s.temp_files_live) ∧
    ((smalter_single_arm C T filename b lang s).2.temp_files_live = s.temp_files_live ∧
     (smalter_single_arm C T filename b lang s).2.scratch_dirs_live = s.scratch_dirs_live) ∧
    ((ocr_smalter_sync C T filename b lang s).2.scratch_dirs_live = s.scratch_dirs_live ∧
     (ocr_smalter_sync C T filename b lang s).2.temp_files_live = s.temp_files_live) := by
  refine ⟨⟨?_, ?_⟩, ⟨?_, ?_⟩, ?_, ?_⟩
  · obtain ⟨k, hk⟩ := run_bulk_snd C zb T lang s
    rw [hk]
  · obtain ⟨k, hk⟩ := run_bulk_snd C zb T lang s
    rw [hk]
  · rw [smalter_single_arm_snd]
  · rw [smalter_single_arm_snd]
  · rcases ocr_smalter_sync_snd C T filename b lang s with h | ⟨k, h⟩ | h | h <;> rw [h]
  · rcases ocr_smalter_sync_snd C T filename b lang s with h | ⟨k, h⟩ | h | h <;> rw [h]

theorem never_lang_error_after_gate (C : Collab) (T : SmalterDocumentType)
    (filename : String) (upload : Bytes) (lang : Option CniLanguage) (s : FsState)
    (hv : (is_cni T && lang.isNone) = false) :
    (ocr_smalter_sync C T filename upload lang s).1 ≠
      .error { status_code := 400,
               detail := "The \x27lang\x27 parameter is required for CNI documents." } := by
  simp only [ocr_smalter_sync, hv, Bool.false_eq_true, if_false]
  cases hz : py_endswith (py_lower filename) ".zip" with
  | true =>
    simp only [if_true]
    by_cases hm : T ∈ supported_bulk_types
    · simp only [hm, not_true, if_false]
      cases hb : (run_bulk_ocr_task_sync C upload T lang
          { s with upload_reads := s.upload_reads + 1 }).1 with
      | ok frs => simp [hb]
      | error e => simp [hb]
    · simp only [hm, not_false_iff, if_true]
      cases T <;> simp [SmalterDocumentType.value]
  | false =>
    simp only [Bool.false_eq_true, if_false]
    cases hsng : (smalter_single_arm C T filename upload lang
        { s with upload_reads := s.upload_reads + 1 }).1 with
    | ok f => simp [hsng]
    | error err =>
      have h500 := smalter_single_arm_err_status C T filename upload lang
        { s with upload_reads := s.upload_reads + 1 } err hsng
      simp only [hsng]
      intro hbad
      simp only [Except.error.injEq] at hbad
      rw [hbad] at h500
      exact absurd h500 (by decide)

/-- C4: the 400 validation error for a missing language hint is raised
exactly when the selector is an identity selector (CNI front/back) and the
hint is absent: in that case the handler returns before the upload is read,
before any temp file or scratch directory is created and before any model
call (the final state equals the initial state); in every other case — a
non-identity selector with or without a hint, or an identity selector with
a hint supplied — the validation error never occurs. -/
theorem cni_lang_required_validation (C : Collab) (T : SmalterDocumentType)
    (filename : String) (upload : Bytes) (lang : Option CniLanguage) (s : FsState) :
    ((is_cni T = true ∧ lang = none) →
      ocr_smalter_sync C T filename upload lang s =
        (.error { status_code := 400,
                  detail := "The \x27lang\x27 parameter is required for CNI documents." }, s)) ∧
    (¬ (is_cni T = true ∧ lang = none) →
      (ocr_smalter_sync C T filename upload lang s).1 ≠
        .error { status_code := 400,
                 detail := "The \x27lang\x27 parameter is required for CNI documents." }) := by
  constructor
  · rintro ⟨hc, hl⟩
    subst hl
    simp [ocr_smalter_sync, hc]
  · intro hnot
    have hv : (is_cni T && lang.isNone) = false := by
      cases hc : is_cni T with
      | false => simp [hc]
      | true =>
        cases lang with
        | none => exact absurd ⟨hc, rfl⟩ hnot
        | some l => simp [hc]
    exact never_lang_error_after_gate C T filename upload lang s hv

/-- Witness for C4: an identity-front request without a hint is rejected
with the 400 validation error and an untouched state; the same identity
request with a hint supplied never sees that error, nor does a
work-contract request without a hint. -/
theorem cni_lang_required_validation_witness :
    ocr_smalter_sync base_collab .CNI_FRONT "a.png" [] none fs0 =
      (.error { status_code := 400,
                detail := "The \x27lang\x27 parameter is required for CNI documents." }, fs0) ∧
    (ocr_smalter_sync base_collab .CNI_FRONT "a.png" [] (some .FR) fs0).1 ≠
      .error { status_code := 400,
               detail := "The \x27lang\x27 parameter is required for CNI documents." } ∧
    (ocr_smalter_sync base_collab .WORK_CONTRACT "a.png" [] none fs0).1 ≠
      .error { status_code := 400,
               detail := "The \x27lang\x27 parameter is required for CNI documents." } :=
  ⟨(cni_lang_required_validation base_collab .CNI_FRONT "a.png" [] none fs0).1 ⟨rfl, rfl⟩,
   (cni_lang_required_validation base_collab .CNI_FRONT "a.png" [] (some .FR) fs0).2
     (by decide),
   (cni_lang_required_validation base_collab .WORK_CONTRACT "a.png" [] none fs0).2
     (by decide)⟩

/-- C5: a ZIP-named upload whose selector is not among CNI front, CNI back
and work contract fails with the 400 client error before the archive is
expanded or any entry is processed (only the upload read is recorded in the
final state); for an eligible selector the request proceeds into the bulk
dispatcher. -/
theorem bulk_selector_eligibility (C : Collab) (T : SmalterDocumentType)
    (filename : String) (upload : Bytes) (lang : Option CniLanguage) (s : FsState)
    (hzip : py_endswith (py_lower filename) ".zip" = true) :
    (T ∉ supported_bulk_types →
      ocr_smalter_sync C T filename upload lang s =
        (.error { status_code := 400,
                  detail := "Bulk processing for \x27" ++ T.value ++ "\x27 is not supported." },
         { s with upload_reads := s.upload_reads + 1 })) ∧
    (T ∈ supported_bulk_types → (is_cni T && lang.isNone) = false →
      ocr_smalter_sync C T filename upload lang s =
        (let bulk_result := run_bulk_ocr_task_sync C upload T lang
            { s with upload_reads := s.upload_reads + 1 }
         match bulk_result.1 with
         | .ok bulk_results => (.ok (.bulk bulk_results), bulk_result.2)
         | .error e =>
           (.error { status_code := 500, detail := "Bulk processing failed: " ++ e },
            bulk_result.2))) := by
  constructor
  · intro hm
    have hc : is_cni T = false := by
      cases T <;> first | rfl | exact absurd (by decide) hm
    simp [ocr_smalter_sync, hc, hzip, hm]
  · intro hm hv
    simp [ocr_smalter_sync, hv, hzip, hm]

/-- Witness for C5: a resume-selector ZIP request is rejected up front; a
work-contract ZIP request proceeds into the bulk dispatcher. -/
theorem bulk_selector_eligibility_witness :
    ocr_smalter_sync base_collab .RESUME "docs.zip" [] none fs0 =
      (.error { status_code := 400,
                detail := "Bulk processing for \x27" ++ SmalterDocumentType.value .RESUME ++
                  "\x27 is not supported." },
       { fs0 with upload_reads := fs0.upload_reads + 1 }) ∧
    ocr_smalter_sync base_collab .WORK_CONTRACT "docs.zip" [] none fs0 =
      (let bulk_result := run_bulk_ocr_task_sync base_collab [] .WORK_CONTRACT none
          { fs0 with upload_reads := fs0.upload_reads + 1 }
       match bulk_result.1 with
       | .ok bulk_results => (.ok (.bulk bulk_results), bulk_result.2)
       | .error e =>
         (.error { status_code := 500, detail := "Bulk processing failed: " ++ e },
          bulk_result.2)) :=
  ⟨(bulk_selector_eligibility base_collab .RESUME "docs.zip" [] none fs0 rfl).1 (by decide),
   (bulk_selector_eligibility base_collab .WORK_CONTRACT "docs.zip" [] none fs0 rfl).2
     (by decide) rfl⟩

/-- C7: when the uploaded bytes of a bulk request are not a well-formed
archive, the whole request fails with a request-level 500 error carrying
the archive-format message; no per-entry fragment exists in the response
and no entry is processed (no model call is recorded — only the upload
read and the scratch-directory acquisition, which is released again). -/
theorem malformed_archive_fails_whole_request (C : Collab) (T : SmalterDocumentType)
    (filename : String) (upload : Bytes) (lang : Option CniLanguage) (s : FsState) (e : String)
    (hzip : py_endswith (py_lower filename) ".zip" = true)
    (hm : T ∈ supported_bulk_types)
    (hv : (is_cni T && lang.isNone) = false)
    (he : C.expand_archive upload = .error e) :
    ocr_smalter_sync C T filename upload lang s =
      (.error { status_code := 500, detail := "Bulk processing failed: " ++ e },
       { s with upload_reads := s.upload_reads + 1,
                scratch_dirs_created := s.scratch_dirs_created + 1 }) := by
  have hfst := run_bulk_fst_err C upload T lang { s with upload_reads := s.upload_reads + 1 } e he
  have hsnd : (run_bulk_ocr_task_sync C upload T lang
      { s with upload_reads := s.upload_reads + 1 }).2 =
      { s with upload_reads := s.upload_reads + 1,
               scratch_dirs_created := s.scratch_dirs_created + 1 } := by
    unfold run_bulk_ocr_task_sync
    simp [he]
  simp [ocr_smalter_sync, hv, hzip, hm, hfst, hsnd]

/-- Witness for C7: a work-contract request named `batch.zip` whose bytes
the archive expander rejects. -/
theorem malformed_archive_fails_whole_request_witness :
    ocr_smalter_sync c7_collab .WORK_CONTRACT "batch.zip" [] none fs0 =
      (.error { status_code := 500,
                detail := "Bulk processing failed: " ++ "File is not a zip file" },
       { fs0 with upload_reads := fs0.upload_reads + 1,
                  scratch_dirs_created := fs0.scratch_dirs_created + 1 }) :=
  malformed_archive_fails_whole_request c7_collab .WORK_CONTRACT "batch.zip" [] none fs0
    "File is not a zip file" rfl (by decide) rfl rfl

/-- C6 (code-bug evidence): in `extract_resume_fields` the
`HTTPException(415)` for an unrecognized extension and the
`HTTPException(422)` for a file that decodes to no image are raised inside
the handler's `try` block, and `fastapi.HTTPException` subclasses
`Exception`, so the handler's own `except Exception as e` catches them and
re-raises `HTTPException(500, str(e))`: the caller observes status 500 with
the original status folded into the message, not 415 or 422. -/
theorem resume_status_codes_swallowed_to_500 :
    extract_resume_fields c6_collab "doc.txt" [] =
      .error { status_code := 500, detail := "415: Unsupported file type: TXT." } ∧
    extract_resume_fields c6_collab "doc.pdf" [] =
      .error { status_code := 500, detail := "422: Could not process file into an image." } :=
  ⟨rfl, rfl⟩

/-- C8: the `details` field of every successful envelope is always a
sequence: the assembly line `ocr_result if isinstance(ocr_result, list)
else [ocr_result]` passes a returned list through unchanged and wraps a
single payload into a one-element list, and both the bulk per-entry
assembly and the single-document assembly produce exactly this
normalization of the collaborator's result. -/
theorem details_always_sequence_normalization :
    (∀ payloads : List Payload, normalize_details (.multi payloads) = payloads) ∧
    (∀ payload : Payload, normalize_details (.single payload) = [payload]) ∧
    (∀ (C : Collab) (T : SmalterDocumentType) (lang : Option CniLanguage)
       (n : String) (b : Bytes) (r : OcrResult) (f : Fragment),
       C.read_file n = .ok b → C.ocr_smalter_helper b T lang = .ok r →
       process_bulk_entry_try C T lang n = .ok f → f.details = normalize_details r) ∧
    (∀ (C : Collab) (T : SmalterDocumentType) (filename : String) (b : Bytes)
       (lang : Option CniLanguage) (s s' : FsState) (r : OcrResult) (f : Fragment),
       C.ocr_smalter_helper b T lang = .ok r →
       smalter_single_arm C T filename b lang s = (.ok f, s') →
       f.details = normalize_details r) :=
  ⟨fun _ => rfl, fun _ => rfl,
   fun C T lang n b r f hb hr h => try_ok_details C T lang n b r f hb hr h,
   fun C T filename b lang s s' r f hr h =>
     smalter_single_arm_ok_details C T filename b lang s s' f r hr h⟩

/-- Witness for C8: concrete bulk-entry and single-document runs whose
collaborator returns one single payload; both envelopes carry the
one-element normalized sequence. -/
theorem details_always_sequence_normalization_witness :
    (Fragment.mk
        { source_file := some "a.png",
          file_url := some "/ocr/smalter/work-contract",
          file_type := some "PNG",
          file_creation_date := some "1970-01-01" }
        ["payload"]).details =
      normalize_details (.single "payload") ∧
    (Fragment.mk
        { file_url := some "/ocr/smalter/work-contract",
          file_type := some "PNG",
          file_creation_date := some "1970-01-01" }
        ["payload"]).details =
      normalize_details (.single "payload") :=
  ⟨details_always_sequence_normalization.2.2.1 base_collab .WORK_CONTRACT none "a.png" []
      (.single "payload")
      (Fragment.mk
        { source_file := some "a.png",
          file_url := some "/ocr/smalter/work-contract",
          file_type := some "PNG",
          file_creation_date := some "1970-01-01" }
        ["payload"]) rfl rfl rfl,
   details_always_sequence_normalization.2.2.2 base_collab .WORK_CONTRACT "doc.png" [] none
      fs0
      { fs0 with
          temp_files_created := fs0.temp_files_created + 1,
          model_calls := fs0.model_calls + 1 }
      (.single "payload")
      (Fragment.mk
        { file_url := some "/ocr/smalter/work-contract",
          file_type := some "PNG",
          file_creation_date := some "1970-01-01" }
        ["payload"]) rfl rfl⟩

/-- C9: a successful envelope's metadata carries a `language` key exactly
when the selector is an identity selector (CNI front/back), in both the
bulk per-entry assembly and the single-document assembly; in particular a
successful work-contract request that does supply a language hint still has
no `language` key. -/
theorem language_tag_iff_identity_selector :
    (∀ (C : Collab) (T : SmalterDocumentType) (lang : Option CniLanguage)
       (n : String) (f : Fragment),
       process_bulk_entry_try C T lang n = .ok f →
       f.file_metadata.language.isSome = is_cni T) ∧
    (∀ (C : Collab) (T : SmalterDocumentType) (filename : String) (b : Bytes)
       (lang : Option CniLanguage) (s s' : FsState) (f : Fragment),
       smalter_single_arm C T filename b lang s = (.ok f, s') →
       f.file_metadata.language.isSome = is_cni T) ∧
    (∀ (C : Collab) (filename : String) (b : Bytes) (l : CniLanguage)
       (s s' : FsState) (f : Fragment),
       smalter_single_arm C .WORK_CONTRACT filename b (some l) s = (.ok f, s') →
       f.file_metadata.language = none) := by
  refine ⟨?_, ?_, ?_⟩
  · intro C T lang n f h
    exact (try_ok_metadata C T lang n f h).2.2
  · intro C T filename b lang s s' f h
    exact (smalter_single_arm_ok C T filename b lang s s' f h).2.2
  · intro C filename b l s s' f h
    have hL := (smalter_single_arm_ok C .WORK_CONTRACT filename b (some l) s s' f h).2.2
    cases hopt : f.file_metadata.language with
    | none => rfl
    | some v =>
      rw [hopt] at hL
      simp [is_cni] at hL

/-- Witness for C9: a successful identity-front bulk entry carries the
language key; a successful work-contract single run with a hint does not. -/
theorem language_tag_iff_identity_selector_witness :
    (Fragment.mk
        { source_file := some "a.png",
          file_url := some "/ocr/smalter/identity-front",
          file_type := some "PNG",
          file_creation_date := some "1970-01-01",
          language := some "fr" }
        ["payload"]).file_metadata.language.isSome = is_cni .CNI_FRONT ∧
    (Fragment.mk
        { file_url := some "/ocr/smalter/work-contract",
          file_type := some "PNG",
          file_creation_date := some "1970-01-01" }
        ["payload"]).file_metadata.language = none :=
  ⟨language_tag_iff_identity_selector.1 base_collab .CNI_FRONT (some .FR) "a.png"
      (Fragment.mk
        { source_file := some "a.png",
          file_url := some "/ocr/smalter/identity-front",
          file_type := some "PNG",
          file_creation_date := some "1970-01-01",
          language := some "fr" }
        ["payload"]) rfl,
   language_tag_iff_identity_selector.2.2 base_collab "doc.png" [] .FR fs0
      { fs0 with
          temp_files_created := fs0.temp_files_created + 1,
          model_calls := fs0.model_calls + 1 }
      (Fragment.mk
        { file_url := some "/ocr/smalter/work-contract",
          file_type := some "PNG",
          file_creation_date := some "1970-01-01" }
        ["payload"]) rfl⟩

/-- C10: the bulk/single choice of `ocr_smalter_sync` is decided solely by
whether the lowercased filename ends in `.zip`; the uploaded bytes (here
universally quantified) are never consulted for the decision: a non-ZIP
name never yields a bulk response and never creates a scratch directory
even if the bytes are an archive, and a ZIP name never yields a
single-document response and never creates a temp file even if the bytes
are not an archive. -/
theorem mode_dispatch_by_filename_suffix_only (C : Collab) (T : SmalterDocumentType)
    (filename : String) (upload : Bytes) (lang : Option CniLanguage) (s : FsState) :
    (py_endswith (py_lower filename) ".zip" = false →
      response_is_bulk (ocr_smalter_sync C T filename upload lang s).1 = false ∧
      (ocr_smalter_sync C T filename upload lang s).2.scratch_dirs_created =
        s.scratch_dirs_created) ∧
    (py_endswith (py_lower filename) ".zip" = true →
      response_is_single (ocr_smalter_sync C T filename upload lang s).1 = false ∧
      (ocr_smalter_sync C T filename upload lang s).2.temp_files_created =
        s.temp_files_created) := by
  constructor
  · intro hz
    cases hv : is_cni T && lang.isNone with
    | true => constructor <;> simp [ocr_smalter_sync, hv, response_is_bulk]
    | false =>
      have harm := smalter_single_arm_snd C T filename upload lang
        { s with upload_reads := s.upload_reads + 1 }
      constructor
      · simp only [ocr_smalter_sync, hv, hz, Bool.false_eq_true, if_false]
        cases hs : (smalter_single_arm C T filename upload lang
            { s with upload_reads := s.upload_reads + 1 }).1 with
        | ok f => simp [hs, response_is_bulk]
        | error err => simp [hs, response_is_bulk]
      · simp only [ocr_smalter_sync, hv, hz, Bool.false_eq_true, if_false]
        cases hs : (smalter_single_arm C T filename upload lang
            { s with upload_reads := s.upload_reads + 1 }).1 with
        | ok f => simp [hs, harm]
        | error err => simp [hs, harm]
  · intro hz
    cases hv : is_cni T && lang.isNone with
    | true => constructor <;> simp [ocr_smalter_sync, hv, response_is_single]
    | false =>
      by_cases hm : T ∈ supported_bulk_types
      · obtain ⟨k, hk⟩ := run_bulk_snd C upload T lang
          { s with upload_reads := s.upload_reads + 1 }
        constructor
        · simp only [ocr_smalter_sync, hv, hz, if_true, hm, not_true, if_false]
          cases hb : (run_bulk_ocr_task_sync C upload T lang
              { s with upload_reads := s.upload_reads + 1 }).1 with
          | ok frs => simp [hb, response_is_single]
          | error e => simp [hb, response_is_single]
        · simp only [ocr_smalter_sync, hv, hz, if_true, hm, not_true, if_false]
          cases hb : (run_bulk_ocr_task_sync C upload T lang
              { s with upload_reads := s.upload_reads + 1 }).1 with
          | ok frs => simp [hb, hk]
          | error e => simp [hb, hk]
      · constructor <;> simp [ocr_smalter_sync, hv, hz, hm, response_is_single]

/-- Witness for C10: with identical (empty) bytes, the name `a.png` goes to
the single-document path and the name `A.ZIP` goes to the bulk path. -/
theorem mode_dispatch_by_filename_suffix_only_witness :
    (response_is_bulk (ocr_smalter_sync base_collab .WORK_CONTRACT "a.png" [] none fs0).1 =
        false ∧
     (ocr_smalter_sync base_collab .WORK_CONTRACT "a.png" [] none fs0).2.scratch_dirs_created =
        fs0.scratch_dirs_created) ∧
    (response_is_single (ocr_smalter_sync base_collab .WORK_CONTRACT "A.ZIP" [] none fs0).1 =
        false ∧
     (ocr_smalter_sync base_collab .WORK_CONTRACT "A.ZIP" [] none fs0).2.temp_files_created =
        fs0.temp_files_created) :=
  ⟨(mode_dispatch_by_filename_suffix_only base_collab .WORK_CONTRACT "a.png" [] none fs0).1 rfl,
   (mode_dispatch_by_filename_suffix_only base_collab .WORK_CONTRACT "A.ZIP" [] none fs0).2 rfl⟩
